/-
Verification of the price-generation script `Docs/generate-price-sql.py`.

The script is a single-pass generator: a price model (trend + seasonal +
weekly + daily components, clamped to [3.10, 3.50]), a category-multiplier
lookup driven by ordered substring rules, a deterministic reseeded
Mersenne-Twister PRNG for saleyard/state selection and daily noise, and a
batching emitter that prints SQL INSERT statements.

Embedding conventions:
* Prices are modelled as exact rationals (the script uses Python floats;
  the structural claims verified here do not depend on rounding).
* `math.sin` and `math.pi` are environment parameters (`sinFn`, `piQ`):
  the claims quantify over them, never over their float values.
* `END_DATE = datetime.now()` makes `TOTAL_DAYS` and the day-of-year of a
  given offset run-dependent; both are environment parameters.
* The Mersenne Twister (CPython `random`) is embedded exactly for the
  integer pipeline: `random.seed(int)`, `getrandbits`, `_randbelow`,
  `random.choice`, and the 53-bit `random.random()` numerator.
* Python's salted string hash is an environment parameter `h : String → ℤ`
  (one per process run), as the script seeds with `day_offset + hash(category)`.
-/

import Mathlib

namespace PriceGen

/-! ## Configuration constants (source lines 11–45) -/

/-- `BASE_PRICE = 3.30` (source line 15). -/
def BASE_PRICE : ℚ := 33/10

/-- The fixed category list (source lines 18–35), in source order.
Note `"Breeder"` appears twice: once in the cattle group and once in the
pigs group. -/
def CATEGORIES : List String :=
  [ "Feeder Steer", "Feeder Heifer", "Yearling Steer", "Yearling Bull",
    "Grown Steer", "Grown Bull", "Weaner Steer", "Weaner Bull", "Weaner Heifer",
    "Breeding Cow", "Breeder", "Dry Cow", "Cull Cow", "Heifer",
    "First Calf Heifer", "Slaughter Cattle", "Calves",
    "Breeding Ewe", "Maiden Ewe", "Dry Ewe", "Cull Ewe",
    "Weaner Ewe", "Feeder Ewe", "Slaughter Ewe",
    "Wether Lamb", "Weaner Lamb", "Feeder Lamb", "Slaughter Lamb", "Lambs",
    "Breeder", "Dry Sow", "Cull Sow", "Weaner Pig", "Feeder Pig",
    "Grower Pig", "Finisher Pig", "Porker", "Baconer",
    "Grower Barrow", "Finisher Barrow",
    "Breeder Doe", "Dry Doe", "Cull Doe", "Breeder Buck", "Sale Buck",
    "Mature Wether", "Rangeland Goat", "Capretto", "Chevon" ]

/-- The fixed saleyard list (source lines 37–43). -/
def SALEYARDS : List String :=
  [ "Wagga Wagga Livestock Marketing Centre",
    "Dubbo Regional Livestock Market",
    "Roma Saleyards",
    "Ballarat Regional Livestock Exchange",
    "Mount Gambier Livestock Exchange" ]

/-- The fixed state list (source line 45). -/
def STATES : List String := ["NSW", "VIC", "QLD", "SA", "WA"]

/-! ## Python substring membership

`x in s` on Python strings is contiguous-substring membership.  We define
it on the underlying character lists. -/

/-- `subIn needle hay`: `needle` occurs as a contiguous sublist of `hay`
(Python's `needle in hay` on strings, over the char lists). -/
def subIn (needle : List Char) : List Char → Bool
  | [] => needle.isEmpty
  | c :: t => needle.isPrefixOf (c :: t) || subIn needle t

/-- Python's `needle in hay` for strings. -/
def pyIn (needle hay : String) : Bool := subIn needle.data hay.data

/-- Python's `any(x in category for x in xs)`. -/
def anyIn (xs : List String) (category : String) : Bool :=
  xs.any (fun x => pyIn x category)

/-! ## Category multiplier (source lines 47–100)

A direct transcription of the ordered `if/elif` chain of
`get_category_multiplier`. -/

/-- `get_category_multiplier` (source lines 47–100): ordered
substring/exact-match rules; first matching rule wins; fallback 1.0. -/
def get_category_multiplier (category : String) : ℚ :=
  if pyIn "Weaner" category && anyIn ["Steer", "Bull", "Heifer"] category then 118/100
  else if pyIn "Yearling" category && anyIn ["Steer", "Bull"] category then 122/100
  else if anyIn ["Breeding", "Heifer", "Dry Cow"] category || category == "Breeder" then 115/100
  else if pyIn "Cull Cow" category then 95/100
  else if pyIn "Feeder" category && anyIn ["Steer", "Heifer"] category then 118/100
  else if pyIn "Grown" category && anyIn ["Steer", "Bull"] category then 1
  else if pyIn "Slaughter Cattle" category then 92/100
  else if pyIn "Calves" category then 125/100
  else if anyIn ["Breeding Ewe", "Maiden Ewe", "Dry Ewe"] category then 32/10
  else if anyIn ["Cull Ewe", "Slaughter Ewe"] category then 28/10
  else if anyIn ["Wether Lamb", "Weaner Lamb", "Feeder Lamb"] category then 35/10
  else if anyIn ["Slaughter Lamb", "Lambs"] category then 33/10
  else if (pyIn "Breeder" category || pyIn "Dry Sow" category) && pyIn "Sow" category then 66/100
  else if pyIn "Cull Sow" category then 6/10
  else if anyIn ["Weaner Pig", "Feeder Pig"] category then 7/10
  else if pyIn "Grower" category || pyIn "Finisher" category then 65/100
  else if pyIn "Porker" category || pyIn "Baconer" category then 66/100
  else if pyIn "Breeder Doe" category || pyIn "Dry Doe" category then 13/10
  else if pyIn "Cull Doe" category then 12/10
  else if pyIn "Breeder Buck" category || pyIn "Sale Buck" category then 135/100
  else if pyIn "Mature Wether" category || pyIn "Rangeland Goat" category then 13/10
  else if pyIn "Capretto" category then 153/100
  else if pyIn "Chevon" category then 125/100
  else 1

/-! ## CPython `random`: Mersenne Twister (MT19937)

The script reseeds the global generator before every draw
(`random.seed(day_offset)` at line 133, `random.seed(day_offset +
hash(category))` at line 162), so every draw is a pure function of the
seed.  We embed the exact CPython integer pipeline: `init_genrand`,
`init_by_array` (single 32-bit key word, which covers every seed below
2^32 — all seeds reachable in this development), the twist, tempering,
`getrandbits`, `_randbelow` (rejection sampling), `random.choice`, and
the 53-bit numerator of `random.random()`. -/

/-- 2^32, the word modulus of MT19937. -/
def U32 : ℕ := 4294967296

/-- Strict cons: definitionally equal to `v :: t` (the condition is never
true), but forcing the spine forces the value, which keeps kernel
evaluation of the sequential initialisation scans shallow. -/
def scons (v : ℕ) (t : List ℕ) : List ℕ := if v + 1 = 0 then t else v :: t

/-- Tail of `init_genrand`: `mt[i] = (1812433253 * (mt[i-1] ^ (mt[i-1] >> 30)) + i) mod 2^32`. -/
def initGenrandAux : ℕ → ℕ → ℕ → List ℕ
  | 0, _, _ => []
  | n+1, prev, i =>
    let x := (1812433253 * (prev ^^^ (prev >>> 30)) + i) % U32
    scons x (initGenrandAux n x (i+1))

/-- `init_genrand(s)`: the 624-word base initialisation. -/
def init_genrand (s : ℕ) : List ℕ :=
  let m0 := s % U32
  m0 :: initGenrandAux 623 m0 1

/-- One forward sweep of the first `init_by_array` mixing loop for a
single key word `a` (so `key[j] + j = a` throughout):
`mt[i] = (mt[i] ^ ((mt[i-1] ^ (mt[i-1] >> 30)) * 1664525) + a) mod 2^32`,
streaming over the current values with `prev` the value just written at
`i-1`. -/
def ibaScan1 (a : ℕ) : ℕ → List ℕ → List ℕ
  | _, [] => []
  | prev, x :: t =>
    let v := ((x ^^^ ((prev ^^^ (prev >>> 30)) * 1664525)) + a) % U32
    scons v (ibaScan1 a v t)

/-- One forward sweep of the second `init_by_array` mixing loop:
`mt[i] = (mt[i] ^ ((mt[i-1] ^ (mt[i-1] >> 30)) * 1566083941) - i) mod 2^32`
(unsigned wraparound, hence `+ 2^32` before subtracting `i ≤ 623`). -/
def ibaScan2 : ℕ → ℕ → List ℕ → List ℕ
  | _, _, [] => []
  | prev, i, x :: t =>
    let v := (((x ^^^ ((prev ^^^ (prev >>> 30)) * 1566083941)) + U32) - i) % U32
    scons v (ibaScan2 v (i+1) t)

/-- `init_by_array([a])` followed by the final `mt[0] = 0x80000000`; this
is what `random.seed(n)` does for `0 ≤ n < 2^32` (CPython converts the
integer to its 32-bit digits; a single digit here).

The C loops walk `i` cyclically with the wrap `mt[0] := mt[623]; i := 1`.
Unrolled for a 1-word key: loop 1 runs 624 steps — `i = 1..623` (the scan
`s1` with `prev = mt[0]`), then the wrap, then one more step at `i = 1`
with `prev` the wrapped `mt[0] = s1[622]` (the value `v1`); loop 2 runs
623 steps from there — `i = 2..623` (the scan `s2` seeded with `prev =
v1` over the current `mt[2..623] = s1` minus its head), then the wrap,
then one more step at `i = 1` (the value `v2`, with `prev` the wrapped
`mt[0] = s2[621]`).  The final assignment overwrites `mt[0]`, so the
wrap copies never survive into the result `0x80000000 :: v2 :: s2`. -/
def init_by_array1 (a : ℕ) : List ℕ :=
  match init_genrand 19650218 with
  | [] => []
  | m0 :: rest =>
    let s1 := ibaScan1 (a % U32) m0 rest
    let h1 := s1.getD 622 0
    let v1 := (((s1.getD 0 0) ^^^ ((h1 ^^^ (h1 >>> 30)) * 1664525)) + (a % U32)) % U32
    let s2 := ibaScan2 v1 2 (s1.drop 1)
    let h2 := s2.getD 621 0
    let v2 := (((v1 ^^^ ((h2 ^^^ (h2 >>> 30)) * 1566083941)) + U32) - 1) % U32
    2147483648 :: v2 :: s2

/-- Generator state: the 624 words and the cursor `mti`. -/
structure MTState where
  mt : List ℕ
  mti : ℕ

/-- `random.seed(a)` for `0 ≤ a < 2^32` (cursor 624 forces a twist on the
first extraction, as in CPython). -/
def seedMT (a : ℕ) : MTState := ⟨init_by_array1 a, 624⟩

/-- Twist step stream: for each `kk`,
`y = (x & 0x80000000) | (y' & 0x7fffffff)` with `x = mt[kk]`,
`y' = mt[kk+1]`, and the new value is
`m ^ (y >> 1) ^ (y odd ? 0x9908b0df : 0)` with `m` the value at
`kk + 397 (mod 624)` — `xs`, `ys`, `ms` are the three shifted streams. -/
def twistStream : List ℕ → List ℕ → List ℕ → List ℕ
  | x :: xs, y :: ys, m :: ms =>
    let w := (x &&& 2147483648) ||| (y &&& 2147483647)
    (m ^^^ (w >>> 1) ^^^ (if w % 2 = 1 then 2567483615 else 0)) :: twistStream xs ys ms
  | _, _, _ => []

/-- The in-place twist of the 624-word state, unrolled by read source.
Writing `new[kk]` for the updated words: steps `kk = 0..226` read
`old[kk], old[kk+1], old[kk+397]`; steps `kk = 227..453` read
`old[kk], old[kk+1], new[kk-227]` with `new[kk-227]` among the first
block; steps `kk = 454..622` read their lagged values among block
`B1`; the final step `kk = 623` reads `old[623]`, the already-written
`new[0]`, and `new[396]`. -/
def twist (old : List ℕ) : List ℕ :=
  let A := twistStream old (old.drop 1) (old.drop 397)
  let B1 := twistStream (old.drop 227) (old.drop 228) A
  let B2 := twistStream (old.drop 454) (old.drop 455) B1
  let w := ((old.getD 623 0) &&& 2147483648) ||| ((A.getD 0 0) &&& 2147483647)
  let v := (B1.getD 169 0) ^^^ (w >>> 1) ^^^ (if w % 2 = 1 then 2567483615 else 0)
  A ++ B1 ++ B2 ++ [v]

/-- MT19937 output tempering. -/
def temper (y : ℕ) : ℕ :=
  let y1 := y ^^^ (y >>> 11)
  let y2 := y1 ^^^ ((y1 <<< 7) &&& 2636928640)
  let y3 := y2 ^^^ ((y2 <<< 15) &&& 4022730752)
  y3 ^^^ (y3 >>> 18)

/-- `genrand_uint32`: twist when the cursor is exhausted, then temper the
word under the cursor. -/
def genrand_uint32 (s : MTState) : ℕ × MTState :=
  if s.mti ≥ 624 then
    let m := twist s.mt
    (temper (m.getD 0 0), ⟨m, 1⟩)
  else (temper (s.mt.getD s.mti 0), ⟨s.mt, s.mti + 1⟩)

/-- `getrandbits(k)` for `k ≤ 32`: the top `k` bits of one word. -/
def getrandbits (k : ℕ) (s : MTState) : ℕ × MTState :=
  let p := genrand_uint32 s
  (p.1 >>> (32 - k), p.2)

/-- `n.bit_length()` (fuel-based so the kernel can reduce it). -/
def bitLength (n : ℕ) : ℕ := go 64 n where
  go : ℕ → ℕ → ℕ
  | 0, _ => 0
  | fuel+1, n => if n = 0 then 0 else go fuel (n / 2) + 1

/-- Rejection loop of `_randbelow`: draw `k` bits until the value is below
`n`.  CPython's loop is unbounded; the fuel is never exhausted at the
inputs used in this development. -/
def randbelowLoop : ℕ → ℕ → ℕ → MTState → ℕ × MTState
  | 0, _, _, s => (0, s)
  | fuel+1, n, k, s =>
    let p := getrandbits k s
    if p.1 < n then p else randbelowLoop fuel n k p.2

/-- `Random._randbelow(n)` with `k = n.bit_length()`. -/
def randbelow (n : ℕ) (s : MTState) : ℕ × MTState :=
  randbelowLoop 1000 n (bitLength n) s

/-- `random.choice(seq)` = `seq[_randbelow(len(seq))]`. -/
def choice (seq : List String) (s : MTState) : String × MTState :=
  let p := randbelow seq.length s
  (seq.getD p.1 "", p.2)

/-- `random.random()`: `((w1 >> 5) * 2^26 + (w2 >> 6)) / 2^53` as an exact
rational (CPython rounds this to the nearest double; the claims proved
here do not depend on that rounding). -/
def random_random (s : MTState) : ℚ × MTState :=
  let p1 := genrand_uint32 s
  let p2 := genrand_uint32 p1.2
  ((((p1.1 >>> 5) * 67108864 + (p2.1 >>> 6) : ℕ) : ℚ) / 9007199254740992, p2.2)

/-- `random.uniform(a, b) = a + (b - a) * random.random()`. -/
def uniform (a b : ℚ) (s : MTState) : ℚ × MTState :=
  let p := random_random s
  (a + (b - a) * p.1, p.2)

/-! ## Source label (source lines 166–172) -/

/-- The `source` classification of the main loop (source lines 167–172). -/
def sourceLabel (day_offset : ℕ) : String :=
  if day_offset < 7 then "Saleyard"
  else if day_offset < 30 then "State Indicator"
  else "National Benchmark"

/-! ## Quote escaping (source line 163) -/

/-- The single-quote character. -/
def qChar : Char := Char.ofNat 39

/-- Python `s.replace(chr(39), chr(39)*2)` over the char list: every
single quote is doubled. -/
def escQuotes : List Char → List Char
  | [] => []
  | c :: t => if c = qChar then qChar :: qChar :: escQuotes t else c :: escQuotes t

/-- Quote escaping on strings (the `.replace` at source line 163). -/
def pyEscape (s : String) : String := String.mk (escQuotes s.data)

/-! ## Randomised selections and the daily draw -/

/-- Saleyard and state selection for one row (source lines 161–164):
`random.seed(seed)`, then `random.choice(SALEYARDS)` with its quotes
escaped, then `random.choice(STATES)` from the advanced generator. -/
def selectYardState (seed : ℕ) : String × String :=
  let g := seedMT seed
  let p1 := choice SALEYARDS g
  let p2 := choice STATES p1.2
  (pyEscape p1.1, p2.1)

/-- The selection as the script computes it: the seed is
`day_offset + hash(category)`, where `hash` is Python's salted string
hash — a per-process environment value, the parameter `h` here
(`random.seed` uses the absolute value of a negative seed). -/
def rowYardState (h : String → ℤ) (day_offset : ℕ) (category : String) : String × String :=
  selectYardState ((day_offset + h category).natAbs)

/-- Daily variation (source lines 132–134): `random.seed(day_offset)`,
then `random.uniform(-0.03, 0.03)`.  The draw reads the global generator
`g`, but the explicit reseed replaces its state first, so `g` is ignored. -/
def dailyDraw (_g : MTState) (day_offset : ℕ) : ℚ × MTState :=
  let g1 := seedMT day_offset;
  uniform (-3/100) (3/100) g1

/-- The value the reseeded daily draw always produces for an offset. -/
def dailyNoise (day_offset : ℕ) : ℚ :=
  (uniform (-3/100) (3/100) (seedMT day_offset)).1

/-! ## Run environment

Everything the script reads from its runtime that is not integer
arithmetic: `math.sin` and `math.pi` (floats, abstract), the day-of-year
and formatted date of an offset (they depend on `END_DATE =
datetime.now()`), the per-process salted string hash, and `TOTAL_DAYS =
min((END_DATE - START_DATE).days, 1095)`. -/

/-- Abstracted runtime of one program run. -/
structure RunEnv where
  sinFn : ℚ → ℚ
  piQ : ℚ
  dayOfYear : ℕ → ℕ
  dateFmt : ℕ → String
  pyHash : String → ℤ
  totalDays : ℕ

/-! ## Price model (source lines 102–138) -/

/-- The market-trend component (source lines 104–120): piecewise linear
in `progress = day_offset / 1095` with breakpoints 0.2, 0.4, 0.6, 0.8. -/
def trend (day_offset : ℕ) : ℚ :=
  let progress : ℚ := (day_offset : ℚ) / 1095
  if progress < 2/10 then -(5/100) * (progress / (2/10))
  else if progress < 4/10 then
    let decline_progress := (progress - 2/10) / (2/10);
    -(5/100) - (25/100) * decline_progress
  else if progress < 6/10 then
    let recovery_progress := (progress - 4/10) / (2/10);
    -(30/100) + (20/100) * recovery_progress
  else if progress < 8/10 then
    let recovery_progress := (progress - 6/10) / (2/10);
    -(10/100) + (15/100) * recovery_progress
  else
    let growth_progress := (progress - 8/10) / (2/10);
    5/100 + (10/100) * growth_progress

/-- The seasonal component (source lines 123–125):
`sin(day_of_year / 365 * 2π - π/2) * 0.10`. -/
def seasonal (env : RunEnv) (day_offset : ℕ) : ℚ :=
  env.sinFn ((env.dayOfYear day_offset : ℚ) / 365 * 2 * env.piQ - env.piQ / 2) * (10/100)

/-- The weekly-volatility component (source lines 128–130):
`sin(((day_offset // 7) % 13) / 13 * 2π) * 0.08`. -/
def weekly_volatility (env : RunEnv) (day_offset : ℕ) : ℚ :=
  let week_number := day_offset / 7
  let weekly_seed := week_number % 13;
  env.sinFn ((weekly_seed : ℚ) / 13 * 2 * env.piQ) * (8/100)

/-- `calculate_price` (source lines 102–138): base price times one plus
the four components, clamped by `max(3.10, min(3.50, adjusted_price))`. -/
def calculate_price (env : RunEnv) (day_offset : ℕ) : ℚ :=
  let adjusted_price :=
    BASE_PRICE * (1 + trend day_offset + seasonal env day_offset
      + weekly_volatility env day_offset + dailyNoise day_offset)
  max (31/10) (min (35/10) adjusted_price)

/-! ## Rows and batching (source lines 148–194) -/

/-- One emitted row: the fields of the printed value tuple
`(category, saleyard, state, price_per_kg, price_date, source,
is_historical)`.  The saleyard is stored post-escaping, exactly as
interpolated at source line 175; `price` is the exact product (the
script prints it with 4 decimal places); `dateStr` is the run-dependent
`date.strftime` result. -/
structure Row where
  category : String
  saleyard : String
  state : String
  price : ℚ
  dateStr : String
  src : String
  is_historical : Bool
  deriving DecidableEq

/-- The row built by the inner loop (source lines 157–177) for one
day offset and category. -/
def mkRow (env : RunEnv) (day_offset : ℕ) (category : String) : Row :=
  let base_price := calculate_price env day_offset
  let category_price := base_price * get_category_multiplier category
  let ys := rowYardState env.pyHash day_offset category
  { category := category
    saleyard := ys.1
    state := ys.2
    price := category_price
    dateStr := env.dateFmt day_offset
    src := sourceLabel day_offset
    is_historical := true }

/-- The rows of one day, in category order. -/
def dayRows (env : RunEnv) (day_offset : ℕ) : List Row :=
  CATEGORIES.map (mkRow env day_offset)

/-- All emitted rows in emission order: day offsets `0 .. totalDays - 1`,
categories in list order (source lines 152–177). -/
def allRows (env : RunEnv) : List Row :=
  (List.range env.totalDays).flatMap (dayRows env)

/-- `batch_size = 500` (source line 148). -/
def batch_size : ℕ := 500

/-- One iteration of the accumulation (source lines 176–184): append the
row to the current batch, and flush the batch once it holds `batch_size`
rows. -/
def emitStep (acc : List (List Row) × List Row) (r : Row) : List (List Row) × List Row :=
  let cur := acc.2 ++ [r]
  if batch_size ≤ cur.length then (acc.1 ++ [cur], []) else (acc.1, cur)

/-- The emitted batches: the loop over all rows followed by the flush of
a nonempty remainder (source lines 191–194). -/
def emittedBatches (env : RunEnv) : List (List Row) :=
  let p := (allRows env).foldl emitStep ([], [])
  if p.2.isEmpty then p.1 else p.1 ++ [p.2]

/-! ## SQL value rendering (source line 175) -/

/-- Number of single-quote characters in a string. -/
def quoteCount (s : String) : ℕ := s.data.count qChar

/-- The interpolated value tuple of source line 175:
every string field sits between two single quotes; only the saleyard was
escaped beforehand (at line 163); the numeric field is the already
formatted `priceStr`. -/
def renderValue (category saleyard state priceStr dateStr src : String) : String :=
  "(\x27" ++ category ++ "\x27, \x27" ++ saleyard ++ "\x27, \x27" ++ state
    ++ "\x27, " ++ priceStr ++ ", \x27" ++ dateStr ++ "\x27, \x27" ++ src
    ++ "\x27, true)"

end PriceGen

namespace PriceGen

/-! ## Theorems for C3 and C5 -/

/-- C3 counterexample: the claim says the exact string `"Breeder"` falls
through to the generic fallback multiplier 1.0; in the code the
`category == "Breeder"` disjunct of the third rule fires and returns 1.15. -/
theorem breeder_multiplier_not_fallback :
    get_category_multiplier "Breeder" = 115/100 ∧
    ¬ (get_category_multiplier "Breeder" = 1) := by
  constructor
  · simp +decide [get_category_multiplier]
  · simp +decide [get_category_multiplier]
    norm_num

/-- C3 (amended): `get_category_multiplier` is a pure function; rule
precedence gives `"Breeder Doe" ↦ 1.30`, while the exact string
`"Breeder"` matches the explicit `category == "Breeder"` clause of the
cattle breeding rule and yields 1.15 (not the generic fallback 1.0). -/
theorem get_category_multiplier_spec :
    get_category_multiplier "Breeder Doe" = 130/100 ∧
    get_category_multiplier "Breeder" = 115/100 := by
  constructor
  · simp +decide [get_category_multiplier]
    norm_num
  · simp +decide [get_category_multiplier]

/-- C5: the emitted `source` label is `"Saleyard"` iff the offset is below
7, `"State Indicator"` iff it is in [7, 30), and `"National Benchmark"`
iff it is at least 30 (source lines 167–172). -/
theorem sourceLabel_spec (day_offset : ℕ) :
    (sourceLabel day_offset = "Saleyard" ↔ day_offset < 7) ∧
    (sourceLabel day_offset = "State Indicator" ↔ 7 ≤ day_offset ∧ day_offset < 30) ∧
    (sourceLabel day_offset = "National Benchmark" ↔ 30 ≤ day_offset) := by
  unfold sourceLabel
  by_cases h7 : day_offset < 7
  · rw [if_pos h7]
    exact ⟨⟨fun _ => h7, fun _ => rfl⟩,
           ⟨fun h => absurd h (by decide), fun h => (by omega : False).elim⟩,
           ⟨fun h => absurd h (by decide), fun h => (by omega : False).elim⟩⟩
  · by_cases h30 : day_offset < 30
    · rw [if_neg h7, if_pos h30]
      exact ⟨⟨fun h => absurd h (by decide), fun h => (h7 h).elim⟩,
             ⟨fun _ => by omega, fun _ => rfl⟩,
             ⟨fun h => absurd h (by decide), fun h => (by omega : False).elim⟩⟩
    · rw [if_neg h7, if_neg h30]
      exact ⟨⟨fun h => absurd h (by decide), fun h => (h7 h).elim⟩,
             ⟨fun h => absurd h (by decide), fun h => (by omega : False).elim⟩,
             ⟨fun _ => by omega, fun _ => rfl⟩⟩

/-! ## Claims C1, C4, C8: the price model -/

/-- The clamp `max(3.10, min(3.50, ·))` lands in `[3.10, 3.50]` whatever
the adjusted price is. -/
theorem calculate_price_bounds (env : RunEnv) (day_offset : ℕ) :
    31/10 ≤ calculate_price env day_offset ∧ calculate_price env day_offset ≤ 35/10 := by
  unfold calculate_price
  exact ⟨le_max_left _ _, max_le (by norm_num) (min_le_left _ _)⟩

/-- C1: for every day offset in `[0, TOTAL_DAYS)` (in fact for every
offset), `calculate_price` returns a value in the closed interval
`[3.10, 3.50]`; the clamp is applied inside `calculate_price`, before any
category multiplier is. -/
theorem calculate_price_in_range (env : RunEnv) (day_offset : ℕ)
    (_hd : day_offset < env.totalDays) :
    31/10 ≤ calculate_price env day_offset ∧ calculate_price env day_offset ≤ 35/10 :=
  calculate_price_bounds env day_offset

/-- Witness for C1 at day offset 0 of a run with the full 1095 days. -/
theorem calculate_price_in_range_witness :
    0 < (RunEnv.mk (fun _ => 0) 0 (fun _ => 1) (fun _ => "") (fun _ => 0) 1095).totalDays ∧
    (31/10 ≤ calculate_price (RunEnv.mk (fun _ => 0) 0 (fun _ => 1) (fun _ => "") (fun _ => 0) 1095) 0 ∧
     calculate_price (RunEnv.mk (fun _ => 0) 0 (fun _ => 1) (fun _ => "") (fun _ => 0) 1095) 0 ≤ 35/10) :=
  ⟨by decide, calculate_price_in_range _ 0 (by decide)⟩

/-- C8: the daily-noise draw reseeds the generator with the day offset
and therefore yields the same value whatever the incoming generator
state is — determinism of repeated invocations; that value is
`dailyNoise day_offset`. -/
theorem dailyDraw_deterministic (day_offset : ℕ) (g g' : MTState) :
    (dailyDraw g day_offset).1 = (dailyDraw g' day_offset).1 ∧
    (dailyDraw g day_offset).1 = dailyNoise day_offset :=
  ⟨rfl, rfl⟩

/-- C4: every row's price is the clamped base price times the category
multiplier (multiplier applied after clamping); for day offset 0,
`"Grown Steer"` has multiplier 1 and stays in `[3.10, 3.50]`,
`"Capretto"` gets `base_price * 1.53`, and a multiplier above 1 can push
the final price out of the clamp range (`"Wether Lamb"`, multiplier
3.5). -/
theorem row_price_multiplier_after_clamp (env : RunEnv) :
    (∀ d c, (mkRow env d c).price = calculate_price env d * get_category_multiplier c) ∧
    get_category_multiplier "Grown Steer" = 1 ∧
    (31/10 ≤ (mkRow env 0 "Grown Steer").price ∧ (mkRow env 0 "Grown Steer").price ≤ 35/10) ∧
    (mkRow env 0 "Capretto").price = calculate_price env 0 * (153/100) ∧
    35/10 < (mkRow env 0 "Wether Lamb").price := by
  have hmk : ∀ d c, (mkRow env d c).price = calculate_price env d * get_category_multiplier c :=
    fun d c => rfl
  have hgs : get_category_multiplier "Grown Steer" = 1 := by
    simp +decide [get_category_multiplier]
  have hcap : get_category_multiplier "Capretto" = 153/100 := by
    simp +decide [get_category_multiplier]
  have hwl : get_category_multiplier "Wether Lamb" = 35/10 := by
    simp +decide [get_category_multiplier]
  have hb := calculate_price_bounds env 0
  refine ⟨hmk, hgs, ⟨?_, ?_⟩, ?_, ?_⟩
  · rw [hmk, hgs, mul_one]; exact hb.1
  · rw [hmk, hgs, mul_one]; exact hb.2
  · rw [hmk, hcap]
  · rw [hmk, hwl]
    nlinarith [hb.1]

/-! ## Claim C9: the duplicated `"Breeder"` category -/

/-- C9: `"Breeder"` occurs twice in `CATEGORIES`; a day's 49 rows
therefore contain the row built for `"Breeder"` exactly twice (the two
occurrences yield identical value tuples, since the row is a function of
the day offset and the category string alone). -/
theorem breeder_counted_twice (env : RunEnv) (d : ℕ) :
    CATEGORIES.count "Breeder" = 2 ∧
    (dayRows env d).length = 49 ∧
    (dayRows env d).count (mkRow env d "Breeder") = 2 := by
  have hinj : Function.Injective (mkRow env d) := by
    intro a b h
    exact congrArg Row.category h
  refine ⟨by decide, ?_, ?_⟩
  · unfold dayRows
    rw [List.length_map]
    decide
  · unfold dayRows
    rw [List.count_map_of_injective _ _ hinj]
    decide

/-! ## Claim C10: quoting of the rendered SQL values -/

/-- Counting quotes distributes over string concatenation. -/
theorem quoteCount_append (s t : String) :
    quoteCount (s ++ t) = quoteCount s + quoteCount t := by
  cases s with
  | mk a =>
    cases t with
    | mk b =>
      show (a ++ b).count qChar = a.count qChar + b.count qChar
      rw [List.count_append]

/-- C10: none of the fixed category, saleyard, or state strings contains
a single quote (so quote escaping — applied to the saleyard only — is
the identity there), the source labels are quote-free, and consequently
every quote in a rendered value tuple is one of the 10 delimiters of the
template of source line 175: the embedded data contributes none. -/
theorem sql_fields_quote_free :
    (∀ c ∈ CATEGORIES, quoteCount c = 0) ∧
    (∀ y ∈ SALEYARDS, quoteCount y = 0 ∧ pyEscape y = y) ∧
    (∀ st ∈ STATES, quoteCount st = 0) ∧
    (∀ d, quoteCount (sourceLabel d) = 0) ∧
    (∀ c y st priceStr dateStr d, c ∈ CATEGORIES → y ∈ SALEYARDS → st ∈ STATES →
      quoteCount priceStr = 0 → quoteCount dateStr = 0 →
      quoteCount (renderValue c (pyEscape y) st priceStr dateStr (sourceLabel d)) = 10) := by
  have hcsl : ∀ d, quoteCount (sourceLabel d) = 0 := by
    intro d
    unfold sourceLabel
    split
    · decide
    · split
      · decide
      · decide
  have hcat : ∀ c ∈ CATEGORIES, quoteCount c = 0 := by decide
  have hyd : ∀ y ∈ SALEYARDS, quoteCount y = 0 ∧ pyEscape y = y := by decide
  have hst : ∀ st ∈ STATES, quoteCount st = 0 := by decide
  refine ⟨hcat, hyd, hst, hcsl, ?_⟩
  intro c y st priceStr dateStr d hc hy hstm hp hd
  have h1 := hcat c hc
  have h2 := (hyd y hy).1
  have h2e := (hyd y hy).2
  have h3 := hst st hstm
  unfold renderValue
  rw [h2e]
  simp only [quoteCount_append, h1, h2, h3, hp, hd, hcsl d]
  decide

/-- Witness for C10 on a concrete row's fields. -/
theorem sql_fields_quote_free_witness :
    quoteCount (renderValue "Capretto" (pyEscape "Roma Saleyards") "QLD" "3.3000"
      "2025-01-01" (sourceLabel 0)) = 10 :=
  sql_fields_quote_free.2.2.2.2 "Capretto" "Roma Saleyards" "QLD" "3.3000" "2025-01-01" 0
    (by decide) (by decide) (by decide) (by decide) (by decide)

/-! ## Claim C6: batching -/

/-- Invariant of the accumulation loop: starting from an accumulator
whose flushed batches are all within `batch_size` and whose current
batch is strictly below it, the loop keeps both properties, and the
flushed batches followed by the current batch always spell out exactly
the processed rows in order. -/
theorem emitFold_inv (rows : List Row) (acc : List (List Row) × List Row)
    (h1 : ∀ b ∈ acc.1, b.length ≤ batch_size)
    (h2 : acc.2.length < batch_size) :
    (∀ b ∈ (rows.foldl emitStep acc).1, b.length ≤ batch_size) ∧
    (rows.foldl emitStep acc).2.length < batch_size ∧
    (rows.foldl emitStep acc).1.flatten ++ (rows.foldl emitStep acc).2
      = acc.1.flatten ++ (acc.2 ++ rows) := by
  induction rows generalizing acc with
  | nil =>
    simpa using ⟨h1, h2⟩
  | cons r rs ih =>
    rw [List.foldl_cons]
    by_cases hfull : batch_size ≤ (acc.2 ++ [r]).length
    · have e : emitStep acc r = (acc.1 ++ [acc.2 ++ [r]], []) := by
        unfold emitStep
        rw [if_pos hfull]
      rw [e]
      obtain ⟨g1, g2, g3⟩ := ih (acc.1 ++ [acc.2 ++ [r]], [])
        (by
          intro b hb
          rcases List.mem_append.mp hb with hb | hb
          · exact h1 b hb
          · rw [List.mem_singleton.mp hb, List.length_append, List.length_singleton]
            omega)
        (by
          show ([] : List Row).length < batch_size
          norm_num [batch_size])
      refine ⟨g1, g2, ?_⟩
      rw [g3]
      simp [List.flatten_append, List.append_assoc]
    · have e : emitStep acc r = (acc.1, acc.2 ++ [r]) := by
        unfold emitStep
        rw [if_neg hfull]
      rw [e]
      obtain ⟨g1, g2, g3⟩ := ih (acc.1, acc.2 ++ [r]) h1 (Nat.lt_of_not_le hfull)
      refine ⟨g1, g2, ?_⟩
      rw [g3]
      simp [List.append_assoc]

/-- Length of the generated row list: days times categories. -/
theorem allRows_length (env : RunEnv) :
    (allRows env).length = env.totalDays * CATEGORIES.length := by
  unfold allRows
  induction env.totalDays with
  | zero => simp
  | succ k ih =>
    rw [List.range_succ]
    simp only [List.flatMap_append, List.length_append, ih]
    unfold dayRows
    simp [Nat.succ_mul]

/-- C6: every emitted INSERT batch holds at most `batch_size = 500` value
tuples, the concatenation of the batches is exactly the row stream (so
each row lands in exactly one batch, in order), and the total row count
is `totalDays * 49`. -/
theorem batches_spec (env : RunEnv) :
    (∀ b ∈ emittedBatches env, b.length ≤ batch_size) ∧
    (emittedBatches env).flatten = allRows env ∧
    (allRows env).length = env.totalDays * CATEGORIES.length ∧
    CATEGORIES.length = 49 := by
  obtain ⟨g1, g2, g3⟩ :=
    emitFold_inv (allRows env) ([], []) (by simp) (by norm_num [batch_size])
  simp only [List.flatten_nil, List.nil_append] at g3
  unfold emittedBatches
  refine ⟨?_, ?_, allRows_length env, rfl⟩
  · intro b hb
    by_cases he : ((allRows env).foldl emitStep ([], [])).2.isEmpty
    · rw [if_pos he] at hb
      exact g1 b hb
    · rw [if_neg he] at hb
      rcases List.mem_append.mp hb with hb | hb
      · exact g1 b hb
      · rw [List.mem_singleton.mp hb]
        exact Nat.le_of_lt g2
  · by_cases he : ((allRows env).foldl emitStep ([], [])).2.isEmpty
    · rw [if_pos he]
      have : ((allRows env).foldl emitStep ([], [])).2 = [] := by
        simpa [List.isEmpty_iff] using he
      rw [this, List.append_nil] at g3
      exact g3
    · rw [if_neg he]
      rw [List.flatten_append, List.flatten_cons, List.flatten_nil, List.append_nil]
      exact g3

/-! ## Claim C2: the price formula

The only non-definitional part is that the daily draw really lands in
`[-0.03, 0.03]`, which needs the generator words to be genuine 32-bit
values; we prove that invariant through the whole MT19937 pipeline. -/

theorem U32_eq : U32 = 2 ^ 32 := by norm_num [U32]

theorem mod_lt_u32 (x : ℕ) : x % U32 < U32 := Nat.mod_lt _ (by norm_num [U32])

theorem xor_lt_u32 {x y : ℕ} (hx : x < U32) (hy : y < U32) : x ^^^ y < U32 := by
  rw [U32_eq] at hx hy ⊢
  show Nat.bitwise bne x y < 2 ^ 32
  exact Nat.bitwise_lt hx hy

theorem lor_lt_u32 {x y : ℕ} (hx : x < U32) (hy : y < U32) : x ||| y < U32 := by
  rw [U32_eq] at hx hy ⊢
  show Nat.bitwise or x y < 2 ^ 32
  exact Nat.bitwise_lt hx hy

theorem and_lt_u32 {m : ℕ} (x : ℕ) (hm : m < U32) : x &&& m < U32 :=
  lt_of_le_of_lt Nat.and_le_right hm

theorem shiftRight_lt_u32 {x : ℕ} (k : ℕ) (hx : x < U32) : x >>> k < U32 := by
  rw [Nat.shiftRight_eq_div_pow]
  exact lt_of_le_of_lt (Nat.div_le_self _ _) hx

theorem mem_scons {x v : ℕ} {t : List ℕ} (h : x ∈ scons v t) : x = v ∨ x ∈ t := by
  unfold scons at h
  rw [if_neg (Nat.succ_ne_zero v)] at h
  exact List.mem_cons.mp h

theorem initGenrandAux_lt : ∀ (n prev i : ℕ), ∀ x ∈ initGenrandAux n prev i, x < U32 := by
  intro n
  induction n with
  | zero => intro prev i x hx; simp [initGenrandAux] at hx
  | succ k ih =>
    intro prev i x hx
    unfold initGenrandAux at hx
    rcases mem_scons hx with h | h
    · exact h ▸ mod_lt_u32 _
    · exact ih _ _ x h

theorem init_genrand_lt (s : ℕ) : ∀ x ∈ init_genrand s, x < U32 := by
  intro x hx
  unfold init_genrand at hx
  rcases List.mem_cons.mp hx with h | h
  · exact h ▸ mod_lt_u32 _
  · exact initGenrandAux_lt _ _ _ x h

theorem ibaScan1_lt (a : ℕ) : ∀ (l : List ℕ) (prev : ℕ), ∀ x ∈ ibaScan1 a prev l, x < U32 := by
  intro l
  induction l with
  | nil => intro prev x hx; simp [ibaScan1] at hx
  | cons c t ih =>
    intro prev x hx
    unfold ibaScan1 at hx
    rcases mem_scons hx with h | h
    · exact h ▸ mod_lt_u32 _
    · exact ih _ x h

theorem ibaScan2_lt : ∀ (l : List ℕ) (prev i : ℕ), ∀ x ∈ ibaScan2 prev i l, x < U32 := by
  intro l
  induction l with
  | nil => intro prev i x hx; simp [ibaScan2] at hx
  | cons c t ih =>
    intro prev i x hx
    unfold ibaScan2 at hx
    rcases mem_scons hx with h | h
    · exact h ▸ mod_lt_u32 _
    · exact ih _ _ x h

theorem init_by_array1_lt (a : ℕ) : ∀ x ∈ init_by_array1 a, x < U32 := by
  intro x
  unfold init_by_array1
  split
  · intro hx; simp at hx
  · intro hx
    rcases List.mem_cons.mp hx with h | hx
    · rw [h]; norm_num [U32]
    rcases List.mem_cons.mp hx with h | hx
    · exact h ▸ mod_lt_u32 _
    · exact ibaScan2_lt _ _ _ x hx

theorem getD_lt {l : List ℕ} (h : ∀ x ∈ l, x < U32) (i : ℕ) : l.getD i 0 < U32 := by
  induction l generalizing i with
  | nil =>
    show (0 : ℕ) < U32
    norm_num [U32]
  | cons c t ih =>
    cases i with
    | zero => exact h c (List.mem_cons_self c t)
    | succ j => exact ih (fun x hx => h x (List.mem_cons_of_mem c hx)) j

theorem twistStream_lt : ∀ (xs ys ms : List ℕ), (∀ m ∈ ms, m < U32) →
    ∀ v ∈ twistStream xs ys ms, v < U32 := by
  intro xs
  induction xs with
  | nil => intro ys ms _ v hv; simp [twistStream] at hv
  | cons x xt ih =>
    intro ys ms hm v hv
    cases ys with
    | nil => simp [twistStream] at hv
    | cons y yt =>
      cases ms with
      | nil => simp [twistStream] at hv
      | cons m mt2 =>
        unfold twistStream at hv
        rcases List.mem_cons.mp hv with h | hv
        · have hw : (x &&& 2147483648) ||| (y &&& 2147483647) < U32 :=
            lor_lt_u32 (and_lt_u32 x (by norm_num [U32])) (and_lt_u32 y (by norm_num [U32]))
          have hc : (if ((x &&& 2147483648) ||| (y &&& 2147483647)) % 2 = 1
              then 2567483615 else 0) < U32 := by
            split
            · norm_num [U32]
            · norm_num [U32]
          exact h ▸ xor_lt_u32 (xor_lt_u32 (hm m (List.mem_cons_self m mt2))
            (shiftRight_lt_u32 1 hw)) hc
        · exact ih yt mt2 (fun z hz => hm z (List.mem_cons_of_mem m hz)) v hv

theorem twist_lt {old : List ℕ} (h : ∀ x ∈ old, x < U32) : ∀ v ∈ twist old, v < U32 := by
  have hdrop : ∀ (n : ℕ), ∀ x ∈ old.drop n, x < U32 :=
    fun n x hx => h x (List.mem_of_mem_drop hx)
  have hA := twistStream_lt old (old.drop 1) (old.drop 397) (hdrop 397)
  have hB1 := twistStream_lt (old.drop 227) (old.drop 228) _ hA
  have hB2 := twistStream_lt (old.drop 454) (old.drop 455) _ hB1
  intro v hv
  simp only [twist] at hv
  rcases List.mem_append.mp hv with hv | hv
  · rcases List.mem_append.mp hv with hv | hv
    · rcases List.mem_append.mp hv with hv | hv
      · exact hA v hv
      · exact hB1 v hv
    · exact hB2 v hv
  · have hw : ((old.getD 623 0) &&& 2147483648)
        ||| ((twistStream old (old.drop 1) (old.drop 397)).getD 0 0 &&& 2147483647) < U32 :=
      lor_lt_u32 (and_lt_u32 _ (by norm_num [U32])) (and_lt_u32 _ (by norm_num [U32]))
    have hc : ∀ w : ℕ, (if w % 2 = 1 then (2567483615 : ℕ) else 0) < U32 := by
      intro w
      split
      · norm_num [U32]
      · norm_num [U32]
    rw [List.mem_singleton.mp hv]
    exact xor_lt_u32 (xor_lt_u32 (getD_lt hB1 169) (shiftRight_lt_u32 1 hw)) (hc _)

theorem temper_lt {y : ℕ} (hy : y < U32) : temper y < U32 := by
  have h1 : y ^^^ (y >>> 11) < U32 := xor_lt_u32 hy (shiftRight_lt_u32 11 hy)
  have h2 : (y ^^^ (y >>> 11)) ^^^ (((y ^^^ (y >>> 11)) <<< 7) &&& 2636928640) < U32 :=
    xor_lt_u32 h1 (and_lt_u32 _ (by norm_num [U32]))
  have h3 : ((y ^^^ (y >>> 11)) ^^^ (((y ^^^ (y >>> 11)) <<< 7) &&& 2636928640)) ^^^
      ((((y ^^^ (y >>> 11)) ^^^ (((y ^^^ (y >>> 11)) <<< 7) &&& 2636928640)) <<< 15)
        &&& 4022730752) < U32 :=
    xor_lt_u32 h2 (and_lt_u32 _ (by norm_num [U32]))
  exact xor_lt_u32 h3 (shiftRight_lt_u32 18 h3)

theorem genrand_lt {s : MTState} (h : ∀ x ∈ s.mt, x < U32) :
    (genrand_uint32 s).1 < U32 ∧ ∀ x ∈ (genrand_uint32 s).2.mt, x < U32 := by
  unfold genrand_uint32
  split
  · exact ⟨temper_lt (getD_lt (twist_lt h) 0), twist_lt h⟩
  · exact ⟨temper_lt (getD_lt h s.mti), h⟩

theorem seedMT_lt (a : ℕ) : ∀ x ∈ (seedMT a).mt, x < U32 := init_by_array1_lt a

theorem random_random_bounds {s : MTState} (h : ∀ x ∈ s.mt, x < U32) :
    0 ≤ (random_random s).1 ∧ (random_random s).1 < 1 := by
  obtain ⟨hw1, hs1⟩ := genrand_lt h
  obtain ⟨hw2, _⟩ := genrand_lt hs1
  have e : (random_random s).1
      = ((((genrand_uint32 s).1 >>> 5) * 67108864
          + ((genrand_uint32 (genrand_uint32 s).2).1 >>> 6) : ℕ) : ℚ) / 9007199254740992 := rfl
  rw [e]
  constructor
  · positivity
  · rw [div_lt_one (by norm_num)]
    have b1 : (genrand_uint32 s).1 >>> 5 < 134217728 := by
      rw [Nat.shiftRight_eq_div_pow]
      rw [U32_eq] at hw1
      exact (Nat.div_lt_iff_lt_mul (by norm_num)).mpr (by norm_num at hw1 ⊢; omega)
    have b2 : (genrand_uint32 (genrand_uint32 s).2).1 >>> 6 < 67108864 := by
      rw [Nat.shiftRight_eq_div_pow]
      rw [U32_eq] at hw2
      exact (Nat.div_lt_iff_lt_mul (by norm_num)).mpr (by norm_num at hw2 ⊢; omega)
    have hnum : ((genrand_uint32 s).1 >>> 5) * 67108864
        + ((genrand_uint32 (genrand_uint32 s).2).1 >>> 6) < 9007199254740992 := by
      omega
    exact_mod_cast hnum

/-- The daily draw really lands in `[-0.03, 0.03]` (in fact `[-0.03, 0.03)`). -/
theorem dailyNoise_bounds (d : ℕ) : -(3/100) ≤ dailyNoise d ∧ dailyNoise d ≤ 3/100 := by
  obtain ⟨h0, h1⟩ :=
    random_random_bounds (show ∀ x ∈ (seedMT d).mt, x < U32 from seedMT_lt d)
  have e : dailyNoise d
      = -3/100 + (3/100 - -3/100) * (random_random (seedMT d)).1 := rfl
  constructor
  · rw [e]; linarith
  · rw [e]; linarith

/-- C2: `calculate_price` is exactly the clamped sum formula
`BASE_PRICE * (1 + trend + seasonal + weekly + daily)` with the
documented components: the trend is piecewise linear in
`progress = offset/1095` with the breakpoints at day offsets 219, 438,
657, 876 (progress 0.2, 0.4, 0.6, 0.8); the seasonal and weekly terms
are the stated sine expressions; and the daily term is the
deterministic, offset-seeded uniform draw, which lies in
`[-0.03, 0.03]`. -/
theorem calculate_price_formula (env : RunEnv) (day_offset : ℕ) :
    calculate_price env day_offset
      = max (31/10) (min (35/10)
          (BASE_PRICE * (1 + trend day_offset + seasonal env day_offset
            + weekly_volatility env day_offset + dailyNoise day_offset))) ∧
    trend day_offset
      = (if day_offset < 219 then
           -(5/100) * ((day_offset : ℚ) / 1095 / (2/10))
         else if day_offset < 438 then
           -(5/100) - (25/100) * (((day_offset : ℚ) / 1095 - 2/10) / (2/10))
         else if day_offset < 657 then
           -(30/100) + (20/100) * (((day_offset : ℚ) / 1095 - 4/10) / (2/10))
         else if day_offset < 876 then
           -(10/100) + (15/100) * (((day_offset : ℚ) / 1095 - 6/10) / (2/10))
         else
           5/100 + (10/100) * (((day_offset : ℚ) / 1095 - 8/10) / (2/10))) ∧
    seasonal env day_offset
      = env.sinFn ((env.dayOfYear day_offset : ℚ) / 365 * 2 * env.piQ - env.piQ / 2) * (10/100) ∧
    weekly_volatility env day_offset
      = env.sinFn (((day_offset / 7 % 13 : ℕ) : ℚ) / 13 * 2 * env.piQ) * (8/100) ∧
    -(3/100) ≤ dailyNoise day_offset ∧ dailyNoise day_offset ≤ 3/100 := by
  have cast1095 : ∀ (k : ℕ) (q : ℚ), q * 1095 = (k : ℚ) →
      (((day_offset : ℚ) / 1095 < q) ↔ day_offset < k) := by
    intro k q hq
    rw [div_lt_iff₀ (by norm_num : (0:ℚ) < 1095), hq]
    exact_mod_cast Iff.rfl
  have c1 := cast1095 219 (2/10) (by norm_num)
  have c2 := cast1095 438 (4/10) (by norm_num)
  have c3 := cast1095 657 (6/10) (by norm_num)
  have c4 := cast1095 876 (8/10) (by norm_num)
  refine ⟨rfl, ?_, rfl, rfl, (dailyNoise_bounds day_offset).1, (dailyNoise_bounds day_offset).2⟩
  simp only [trend]
  by_cases h1 : day_offset < 219
  · rw [if_pos (c1.mpr h1), if_pos h1]
  · rw [if_neg (fun hq => h1 (c1.mp hq)), if_neg h1]
    by_cases h2 : day_offset < 438
    · rw [if_pos (c2.mpr h2), if_pos h2]
    · rw [if_neg (fun hq => h2 (c2.mp hq)), if_neg h2]
      by_cases h3 : day_offset < 657
      · rw [if_pos (c3.mpr h3), if_pos h3]
      · rw [if_neg (fun hq => h3 (c3.mp hq)), if_neg h3]
        by_cases h4 : day_offset < 876
        · rw [if_pos (c4.mpr h4), if_pos h4]
        · rw [if_neg (fun hq => h4 (c4.mp hq)), if_neg h4]

/-! ## Claim C7: the saleyard/state selection across runs

The selection seed is `day_offset + hash(category)`.  Python's string
hash is salted per process, so two runs are two different hash
environments; evaluating the embedded CPython generator shows the
selection genuinely depends on the hash value, refuting cross-run
determinism. -/

set_option maxRecDepth 100000 in
set_option maxHeartbeats 2000000 in
/-- C7: for the fixed pair `(day offset 0, category "Feeder Steer")`, a
run whose salted hash gives 0 on the category selects
(Ballarat, SA), while a run whose hash gives 1 selects (Dubbo, WA): the
chosen saleyard and state are NOT identical across runs — they depend on
the per-process hash salt, as the seed `day_offset + hash(category)`
does. -/
theorem yard_state_hash_dependent :
    rowYardState (fun _ => 0) 0 "Feeder Steer"
      = ("Ballarat Regional Livestock Exchange", "SA") ∧
    rowYardState (fun _ => 1) 0 "Feeder Steer"
      = ("Dubbo Regional Livestock Market", "WA") ∧
    rowYardState (fun _ => 0) 0 "Feeder Steer"
      ≠ rowYardState (fun _ => 1) 0 "Feeder Steer" := by
  have e0 : rowYardState (fun _ => 0) 0 "Feeder Steer"
      = ("Ballarat Regional Livestock Exchange", "SA") := by decide
  have e1 : rowYardState (fun _ => 1) 0 "Feeder Steer"
      = ("Dubbo Regional Livestock Market", "WA") := by decide
  refine ⟨e0, e1, ?_⟩
  rw [e0, e1]
  decide

end PriceGen
